import Mathlib

/-!
Verification development for the houses-rental-scraping repository.

The Python sources under src/ are shallowly embedded below: Python values
appearing in scraped records are modelled by `PyVal` (machine floats are
modelled by rationals, which is faithful here because the code only parses
decimal literals and compares them, never performs rounding arithmetic);
dictionaries by association lists; raised exceptions by `Option.none`
results; the file system and HTTP responses by explicit state values.
-/

namespace Rental

/-- Python value appearing in a scraped record: None, a string, an int, or a
float (modelled as a rational; see file header). -/
inductive PyVal : Type where
  | none : PyVal
  | str : String → PyVal
  | int : ℤ → PyVal
  | float : ℚ → PyVal
deriving DecidableEq

/-- Python truthiness test restricted to `PyVal`: None, the empty string,
and numeric zero are falsy («if not value»). -/
def pyFalsy : PyVal → Bool
  | .none => true
  | .str s => s = ""
  | .int n => n = 0
  | .float q => q = 0

/-- A Python dict holding record fields, as an association list. -/
abbrev PyDict : Type := List (String × PyVal)

/-- The «announcement.get(key, default)» dictionary access. -/
def pyGet (d : PyDict) (k : String) (default : PyVal) : PyVal :=
  match List.lookup k d with
  | some v => v
  | Option.none => default

/-- Value of the digit string `ds` read in base 10 (the digits are ASCII). -/
def digitsVal (ds : List Char) : ℕ :=
  ds.foldl (fun acc c => 10 * acc + (c.toNat - 48)) 0

/-- Split a character list on a separator character; the Python semantics
of s.split(sep) for a one-character separator. -/
def splitOnChar (sep : Char) : List Char → List (List Char)
  | [] => [[]]
  | c :: cs =>
      if c == sep then [] :: splitOnChar sep cs
      else
        match splitOnChar sep cs with
        | [] => [[c]]
        | h :: t => (c :: h) :: t

/-- Strip leading and trailing whitespace from a character list — Python
str.strip(). -/
def trimList (l : List Char) : List Char :=
  ((l.dropWhile Char.isWhitespace).reverse.dropWhile Char.isWhitespace).reverse

/-- Python s.strip() on a string. -/
def strTrim (s : String) : String := String.mk (trimList s.toList)

/-- BaseTransformer.clean_numeric (src/etl/transform/base_transformer.py
lines 32-45): falsy or "N/A" gives 0, ints pass through, strings are
stripped to their digits and parsed (0 when no digit survives), anything
else gives 0. -/
def clean_numeric (v : PyVal) : ℤ :=
  if pyFalsy v || v = .str "N/A" then 0
  else
    match v with
    | .int n => n
    | .str s =>
        let ds := s.toList.filter Char.isDigit
        if ds.isEmpty then 0 else (digitsVal ds : ℤ)
    | _ => 0

/-- Python float("...") on a string made only of digits and dots: one
optional dot with at least one digit somewhere parses; anything else
raises (`Option.none`). -/
def pyFloatOfDigitsDots (l : List Char) : Option ℚ :=
  match splitOnChar '.' l with
  | [a] => if a.isEmpty then Option.none else some (digitsVal a : ℚ)
  | [a, b] =>
      if a.isEmpty && b.isEmpty then Option.none
      else some ((digitsVal a : ℚ) + (digitsVal b : ℚ) / ((10 ^ b.length : ℕ) : ℚ))
  | _ => Option.none

/-- BaseTransformer.clean_float (base_transformer.py lines 47-60): falsy or
"N/A" gives 0.0, numbers pass through, strings keep digits and dots and are
parsed by float() — which can raise, modelled by `Option.none`. -/
def clean_float (v : PyVal) : Option ℚ :=
  if pyFalsy v || v = .str "N/A" then some 0
  else
    match v with
    | .int n => some (n : ℚ)
    | .float q => some q
    | .str s =>
        let ns := s.toList.filter (fun c => c.isDigit || c == '.')
        if ns.isEmpty then some 0 else pyFloatOfDigitsDots ns
    | .none => some 0

/-- First match of the regex `\d+(?:\.\d+)?` in a character list: the first
maximal digit run, extended by a fractional part when a dot followed by at
least one digit comes right after. -/
def firstNumToken : List Char → Option ℚ
  | [] => Option.none
  | c :: cs =>
      if c.isDigit then
        let ds := (c :: cs).takeWhile Char.isDigit
        let rest := (c :: cs).dropWhile Char.isDigit
        match rest with
        | '.' :: more =>
            let fs := more.takeWhile Char.isDigit
            if fs.isEmpty then some (digitsVal ds : ℚ)
            else some ((digitsVal ds : ℚ) + (digitsVal fs : ℚ) / ((10 ^ fs.length : ℕ) : ℚ))
        | _ => some (digitsVal ds : ℚ)
      else firstNumToken cs

/-- AnnouncementsTransformer._clean_area (announcements_transformer.py
lines 88-99): falsy or "N/A" gives 0.0; strings take the first numeric
token when one exists; everything else falls to clean_float (whose raise
propagates). -/
def clean_area (v : PyVal) : Option ℚ :=
  if pyFalsy v || v = .str "N/A" then some 0
  else
    match v with
    | .str s =>
        match firstNumToken s.toList with
        | some q => some q
        | Option.none => clean_float v
    | _ => clean_float v

/-- Python str() limited to the values str()/strip() is applied to here;
the float rendering is abstracted (no claim depends on it). -/
def pyStr : PyVal → String
  | .none => "None"
  | .str s => s
  | .int n => toString n
  | .float q => toString q

/-- BaseTransformer.clean_string (base_transformer.py lines 22-30): falsy
or "N/A" gives the empty string, otherwise str()+strip. -/
def clean_string (v : PyVal) : String :=
  if pyFalsy v || v = .str "N/A" then ""
  else strTrim (pyStr v)

/-- Collapse every whitespace run into a single space — the effect of
re.sub(r"\s+", " ", s); `prevWs` records whether the previous character was
whitespace. -/
def collapseWsAux (prevWs : Bool) : List Char → List Char
  | [] => []
  | c :: cs =>
      if c.isWhitespace then
        (if prevWs then [] else [' ']) ++ collapseWsAux true cs
      else c :: collapseWsAux false cs

/-- Collapse every whitespace run into a single space. -/
def collapseWs (l : List Char) : List Char := collapseWsAux false l

/-- Python str.title() over ASCII: an alphabetic character is uppercased
after a non-alphabetic character and lowercased after an alphabetic one. -/
def pyTitleAux (prevAlpha : Bool) : List Char → List Char
  | [] => []
  | c :: cs =>
      if c.isAlpha then
        (if prevAlpha then c.toLower else c.toUpper) :: pyTitleAux true cs
      else c :: pyTitleAux false cs

/-- Python s.title(). -/
def pyTitle (s : String) : String := String.mk (pyTitleAux false s.toList)

/-- AnnouncementsTransformer._clean_city_name (lines 50-59): falsy input
gives "", a string is whitespace-collapsed and title-cased, and any other
truthy value raises at .strip() (`Option.none`). -/
def clean_city_name (v : PyVal) : Option String :=
  if pyFalsy v then some ""
  else
    match v with
    | .str s => some (pyTitle (String.mk (collapseWs (trimList s.toList))))
    | _ => Option.none

/-- AnnouncementsTransformer._clean_neighborhood (lines 61-70): same body
as _clean_city_name. -/
def clean_neighborhood (v : PyVal) : Option String := clean_city_name v

/-- AnnouncementsTransformer._clean_description (lines 101-113): falsy
gives "", strings are whitespace-collapsed and hard-truncated at 1000
characters with "..." appended, other truthy values raise. -/
def clean_description (v : PyVal) : Option String :=
  if pyFalsy v then some ""
  else
    match v with
    | .str s =>
        let cleaned := collapseWs (trimList s.toList)
        if 1000 < cleaned.length then some (String.mk (cleaned.take 1000) ++ "...")
        else some (String.mk cleaned)
    | _ => Option.none

/-- Lowercase a string character by character (Python str.lower() over the
ASCII keywords the inference tests). -/
def pyLower (s : String) : String := String.mk (s.toList.map Char.toLower)

/-- Does the character list `l` start with `p`? -/
def startsWithList : List Char → List Char → Bool
  | [], _ => true
  | _ :: _, [] => false
  | p :: ps, c :: cs => p == c && startsWithList ps cs

/-- Python substring containment «pat in s» over the characters of `s`. -/
def containsList : List Char → List Char → Bool
  | [], pat => pat.isEmpty
  | c :: cs, pat => startsWithList pat (c :: cs) || containsList cs pat

/-- Python «pat in s» on strings. -/
def pyIn (pat s : String) : Bool := containsList s.toList pat.toList

/-- AnnouncementsTransformer._infer_property_type (lines 115-139): lower
the description (raising on a truthy non-string), clean rooms and area,
then run the keyword cascade, falling back to room-count bands. -/
def infer_property_type (a : PyDict) : Option String :=
  match pyGet a "description" (.str "") with
  | .str d =>
      let dl := pyLower d
      let rooms := clean_numeric (pyGet a "rooms" (.int 0))
      match clean_area (pyGet a "area" (.int 0)) with
      | some area =>
          if pyIn "apartamento" dl then
            if rooms = 1 ∨ area < 50 then some "studio_apartment" else some "apartment"
          else if pyIn "casa" dl then some "house"
          else if pyIn "bodega" dl || pyIn "local" dl then some "warehouse"
          else if pyIn "oficina" dl then some "office"
          else if rooms ≤ 1 then some "studio_apartment"
          else if rooms ≤ 3 then some "apartment"
          else some "house"
      | Option.none => Option.none
  | _ => Option.none

/-- The transformed announcement record built by
AnnouncementsTransformer._transform_single_announcement (lines 26-48). -/
structure TransformedAnnouncement : Type where
  id : String
  url : String
  city_name : String
  city_id : String
  neighborhood : String
  price : ℤ
  rooms : ℤ
  bathrooms : ℤ
  parkings : ℤ
  area : ℚ
  description : String
  image_url : String
  property_type : String
  is_active : Bool
  created_at : String
deriving DecidableEq

/-- AnnouncementsTransformer._transform_single_announcement (lines 26-48):
build the canonical record; any raise inside a field cleaner is caught and
yields `Option.none` (the record is dropped). `now` stands for the
datetime.now() timestamp. -/
def transform_single_announcement (a : PyDict) (now : String) : Option TransformedAnnouncement :=
  (clean_city_name (pyGet a "city" (.str ""))).bind fun cityName =>
  (clean_neighborhood (pyGet a "neighborhood" (.str ""))).bind fun neighborhood =>
  (clean_area (pyGet a "area" (.str ""))).bind fun area =>
  (clean_description (pyGet a "description" (.str ""))).bind fun description =>
  (infer_property_type a).map fun propertyType =>
    { id := clean_string (pyGet a "id" (.str ""))
      url := clean_string (pyGet a "url" (.str ""))
      city_name := cityName
      city_id := clean_string (pyGet a "city_id" (.str ""))
      neighborhood := neighborhood
      price := clean_numeric (pyGet a "price" (.int 0))
      rooms := clean_numeric (pyGet a "rooms" (.str ""))
      bathrooms := clean_numeric (pyGet a "bathrooms" (.str ""))
      parkings := clean_numeric (pyGet a "parkings" (.str ""))
      area := area
      description := description
      image_url := clean_string (pyGet a "img_url" (.str ""))
      property_type := propertyType
      is_active := true
      created_at := now }

/-! ### Base extractor fetch loop (src/etl/extract/base_extractor.py) -/

/-- Outcome of one HTTP attempt inside BaseExtractor.fetch_page: a 2xx/3xx
body, a 429, a 503, or any other failure (a non-OK status raised by
raise_for_status, a timeout, or a transport error). -/
inductive FetchOutcome : Type where
  | success : String → FetchOutcome
  | status429 : FetchOutcome
  | status503 : FetchOutcome
  | failure : FetchOutcome
deriving DecidableEq

/-- A sleep performed by fetch_page: either a backoff sleep of the current
delay (429/503 branches) or the exponential «2^attempt + jitter» sleep of
the exception branch at loop index `attempt`. -/
inductive SleepEvent : Type where
  | backoffSleep : ℚ → SleepEvent
  | retrySleep : ℕ → SleepEvent
deriving DecidableEq

/-- RATE_LIMIT_CONFIG base_delay (src/config/settings.py line 31). -/
def base_delay : ℚ := 1

/-- RATE_LIMIT_CONFIG max_backoff (settings.py line 30). -/
def max_backoff : ℚ := 60

/-- RATE_LIMIT_CONFIG backoff_multiplier (settings.py line 29). -/
def backoff_multiplier : ℚ := 2

/-- What one fetch_page call did: its returned body (none when every
attempt was used up and the URL is recorded as failed), the backoff delay
left in self.backoff_delay, the sleeps performed, the number of loop
iterations consumed and how many of them ended in the exception branch. -/
structure FetchTrace : Type where
  result : Option String
  backoff : ℚ
  sleeps : List SleepEvent
  used : ℕ
  fails : ℕ
deriving DecidableEq

/-- The retry loop of BaseExtractor.fetch_page (base_extractor.py lines
66-96): `o` gives the outcome of the HTTP attempt at each loop index,
`idx` is the current loop index, `b` the current backoff delay and the
last argument the loop iterations left. A 429 sleeps the delay, doubles it
up to the ceiling and continues; a 503 sleeps the delay and continues; a
success resets the delay and returns the body; the exception branch sleeps
the exponential delay unless this was the final iteration. -/
def fetchLoop (o : ℕ → FetchOutcome) (idx : ℕ) (b : ℚ) : ℕ → FetchTrace
  | 0 => ⟨Option.none, b, [], 0, 0⟩
  | r + 1 =>
      match o idx with
      | .success s => ⟨some s, base_delay, [], 1, 0⟩
      | .status429 =>
          let t := fetchLoop o (idx + 1) (min (b * backoff_multiplier) max_backoff) r
          ⟨t.result, t.backoff, .backoffSleep b :: t.sleeps, t.used + 1, t.fails⟩
      | .status503 =>
          let t := fetchLoop o (idx + 1) b r
          ⟨t.result, t.backoff, .backoffSleep b :: t.sleeps, t.used + 1, t.fails⟩
      | .failure =>
          let t := fetchLoop o (idx + 1) b r
          ⟨t.result, t.backoff,
            (if r = 0 then [] else [SleepEvent.retrySleep idx]) ++ t.sleeps,
            t.used + 1, t.fails + 1⟩

/-- BaseExtractor.fetch_page (base_extractor.py lines 62-100) for one URL:
run the retry loop from attempt 0 with the current backoff delay;
`retries` is self.retries (REQUEST_RETRIES defaults to 3). A `none` result
is the path that records the URL in self.error_urls. -/
def fetch_page (o : ℕ → FetchOutcome) (retries : ℕ) (b : ℚ) : FetchTrace :=
  fetchLoop o 0 b retries

/-! ### Announcements extractor pagination
    (src/etl/extract/announcements_extractor.py) -/

/-- A successfully parsed listings page: its announcement rows (already
taken through _parse_announcements_page, whose content is irrelevant to
pagination) and the «Página current / total» pagination indicator when one
is present. -/
structure PageContent : Type where
  rows : List PyDict
  pagination : Option (ℕ × ℕ)
deriving DecidableEq

/-- Result of fetch_page as seen by the pagination loop: a failed fetch
(None), a successful fetch whose body is the empty string — also falsy in
the «if not html_content» test — or a page with content. -/
inductive FetchRes : Type where
  | failed : FetchRes
  | empty : FetchRes
  | page : PageContent → FetchRes
deriving DecidableEq

/-- AnnouncementsExtractor._is_last_page (announcements_extractor.py lines
116-128): with an indicator, current page ≥ total pages; without one,
False. -/
def is_last_page (p : PageContent) : Bool :=
  match p.pagination with
  | some (current, total) => total ≤ current
  | Option.none => false

/-- MAX_LISTINGS_PER_PAGE (settings.py line 18). -/
def max_listings_per_page : ℕ := 50

/-- The rows a fetch result contributes to city_announcements: a page
contributes its parsed rows, a failed or empty fetch contributes none. -/
def rowsOf : FetchRes → List PyDict
  | .page p => p.rows
  | _ => []

/-- The while-True loop of
AnnouncementsExtractor._extract_city_announcements
(announcements_extractor.py lines 90-107): `pages` maps an offset to the
fetch result at that offset, `off` is the current offset and the last
argument is fuel bounding the number of iterations modelled (`none` means
the loop was still running — the source loop has no bound of its own).
Returns the accumulated announcements and the offsets requested. -/
def extract_city_loop (pages : ℕ → FetchRes) (off : ℕ) : ℕ → Option (List PyDict × List ℕ)
  | 0 => Option.none
  | fuel + 1 =>
      match pages off with
      | .failed => some ([], [off])
      | .empty => some ([], [off])
      | .page p =>
          if is_last_page p then some (p.rows, [off])
          else
            match extract_city_loop pages (off + max_listings_per_page) fuel with
            | Option.none => Option.none
            | some (rs, offs) => some (p.rows ++ rs, off :: offs)

/-- AnnouncementsExtractor._extract_city_announcements for one city,
starting at offset 0. -/
def extract_city_announcements (pages : ℕ → FetchRes) (fuel : ℕ) :
    Option (List PyDict × List ℕ) :=
  extract_city_loop pages 0 fuel

/-! ### CSV streaming loader (src/etl/load/csv_loader.py) -/

/-- One line of the flat announcements file: the pandas header row or one
record row. -/
inductive CsvLine : Type where
  | header : CsvLine
  | row : PyDict → CsvLine
deriving DecidableEq

/-- Python «d[k] = v» on a dict: overwrite the existing key or append a
new one. -/
def setKey (r : PyDict) (k : String) (v : PyVal) : PyDict :=
  match List.lookup k r with
  | some _ => r.map (fun p => cond (p.1 == k) (k, v) p)
  | Option.none => r ++ [(k, v)]

/-- The in-place stamping loop of CSVLoader.load_announcements_streaming
(csv_loader.py lines 76-78): set extraction_timestamp on a record. -/
def stampRecord (t : String) (r : PyDict) : PyDict :=
  setKey r "extraction_timestamp" (.str t)

/-- CSVLoader.load_announcements_streaming (csv_loader.py lines 56-96)
over the target file's state (`none` = the file does not exist). Returns
the new file state, the boolean result, and the batch as the caller sees
it afterwards (the records are mutated in place by the stamping loop).
`t` stands for datetime.now().isoformat(). -/
def load_announcements_streaming (data : List PyDict) (file : Option (List CsvLine))
    (is_first_batch : Bool) (t : String) :
    Option (List CsvLine) × Bool × List PyDict :=
  if data.isEmpty then (file, true, data)
  else
    let stamped := data.map (stampRecord t)
    let writeHeader := is_first_batch || file.isNone
    let newLines := (if writeHeader then [CsvLine.header] else []) ++ stamped.map CsvLine.row
    (some (file.getD [] ++ newLines), true, stamped)

/-! ### Cities extractor parsing (src/etl/extract/cities_extractor.py) -/

/-- An anchor element with an href, as found by find_all("a", href=True):
its link target and its visible text. -/
structure Anchor : Type where
  href : String
  text : String
deriving DecidableEq

/-- RENTAL_BASE_URL (settings.py line 15). -/
def rental_base_url : String := "/Resumen_Ciudad_arriendos.asp"

/-- Join character-list pieces back with a separator — the inverse of
`splitOnChar`, used to keep everything after the first split point. -/
def joinSep (sep : Char) : List (List Char) → List Char
  | [] => []
  | [x] => x
  | x :: xs => x ++ sep :: joinSep sep xs

/-- The query component urlparse extracts from a URL: everything after the
first question mark. -/
def url_query (u : String) : List Char :=
  match splitOnChar '?' u.toList with
  | [] => []
  | [_] => []
  | _ :: rest => joinSep '?' rest

/-- parse_qs with its defaults: split the query on ampersands, split each
chunk at its first equals sign, and drop chunks without an equals sign or
with a blank value. -/
def parse_qs (q : List Char) : List (String × String) :=
  (splitOnChar '&' q).filterMap fun chunk =>
    match splitOnChar '=' chunk with
    | [] => Option.none
    | [_] => Option.none
    | k :: vs =>
        let v := joinSep '=' vs
        if v.isEmpty then Option.none else some (String.mk k, String.mk v)

/-- query_params.get(key, [""])[0]: the first value parse_qs collected for
`key`, or the empty string. -/
def qs_get_first (q : List Char) (key : String) : String :=
  match (parse_qs q).filter (fun p => p.1 = key) with
  | [] => ""
  | p :: _ => p.2

/-- A record produced by CitiesExtractor._extract_city_info
(cities_extractor.py lines 50-64). -/
structure CityRec : Type where
  name : String
  code : String
  url : String
  extracted_name : String
deriving DecidableEq

/-- CitiesExtractor._extract_city_info (lines 50-64): the name is the
nCiudad query parameter, falling back to the anchor text when it is falsy;
the code is the pCiudad query parameter. -/
def extract_city_info (url : String) (cityName : String) : CityRec :=
  let n := qs_get_first (url_query url) "nCiudad"
  { name := if n = "" then cityName else n
    code := qs_get_first (url_query url) "pCiudad"
    url := url
    extracted_name := cityName }

/-- Does this anchor pass the «href and href.startswith(RENTAL_BASE_URL)»
filter of _parse_cities_page? -/
def anchorMatches (a : Anchor) : Bool :=
  a.href ≠ "" && startsWithList rental_base_url.toList a.href.toList

/-- CitiesExtractor._parse_cities_page (cities_extractor.py lines 30-48):
keep the matching anchors with their stripped text, in document order, and
map each through _extract_city_info (which never raises in this model, as
its body is total). -/
def parse_cities_page (anchors : List Anchor) : List CityRec :=
  (anchors.filter anchorMatches).map fun a => extract_city_info a.href (strTrim a.text)

/-! ### ETL orchestrator streaming state (src/etl/etl_orchestrator.py) -/

/-- STREAMING_CONFIG save_frequency (settings.py line 47). -/
def save_frequency : ℕ := 10

/-- The orchestrator's streaming state: self.processed_cities,
self.total_announcements, self.is_first_batch. -/
structure StreamState : Type where
  processed : Finset PyVal
  total : ℕ
  first : Bool
deriving DecidableEq

/-- ETLOrchestrator._reset_state (etl_orchestrator.py lines 275-279). -/
def reset_state : StreamState := ⟨∅, 0, true⟩

/-- The checkpoint file on disk: absent, present but unreadable or not of
the expected shape, or readable with its three fields. -/
inductive CheckpointFile : Type where
  | absent : CheckpointFile
  | corrupt : CheckpointFile
  | valid : List PyVal → ℕ → Bool → CheckpointFile
deriving DecidableEq

/-- ETLOrchestrator._load_checkpoint (etl_orchestrator.py lines 231-249):
a readable checkpoint restores the state; a missing file or any exception
while reading or parsing resets the state instead. -/
def load_checkpoint : CheckpointFile → StreamState
  | .absent => reset_state
  | .corrupt => reset_state
  | .valid ps tot fb => ⟨ps.toFinset, tot, fb⟩

/-- The «remaining_cities» filter of run_streaming_pipeline
(etl_orchestrator.py line 138): keep the cities whose id is not in
processed_cities. -/
def remaining_cities (st : StreamState) (cities : List PyDict) : List PyDict :=
  cities.filter fun c => ¬ pyGet c "id" (.str "") ∈ st.processed

/-- One callback invocation of process_announcements_batch
(etl_orchestrator.py lines 196-220) on a raw batch paired with the result
its save would report: empty batches and empty transforms do nothing; a
failed save is only logged; a successful save accumulates the count,
clears the first-batch flag, merges the batch's city ids, and saves a
checkpoint exactly when the new processed-cities size is an exact multiple
of the save frequency. Returns the new state, whether the batch was merged
and whether a checkpoint was saved. -/
def stream_step (ts : String) (st : StreamState) (b : List PyDict × Bool) :
    StreamState × Bool × Bool :=
  if b.1.isEmpty then (st, false, false)
  else
    let transformed := b.1.filterMap (fun a => transform_single_announcement a ts)
    if transformed.isEmpty then (st, false, false)
    else if b.2 then
      let p := st.processed ∪ (transformed.map (fun r => PyVal.str r.city_id)).toFinset
      (⟨p, st.total + transformed.length, false⟩, true, decide (p.card % save_frequency = 0))
    else (st, false, false)

/-- ETLOrchestrator._process_announcements_streaming (etl_orchestrator.py
lines 192-229): fold the callback over the batches delivered by streaming
extraction (each paired with its save outcome) and return True
unconditionally once extraction finishes. -/
def process_announcements_streaming (ts : String) (st : StreamState)
    (batches : List (List PyDict × Bool)) : StreamState × Bool :=
  (batches.foldl (fun s b => (stream_step ts s b).1) st, true)

/-- One line of the checkpoint cadence trace: the processed-cities size
after the step, the size at the last checkpoint save before the step, and
whether the step merged its batch and whether it saved a checkpoint. -/
structure TraceEntry : Type where
  card : ℕ
  lastSave : ℕ
  merged : Bool
  saved : Bool
deriving DecidableEq

/-- Cadence trace of a streaming run: one entry per callback invocation,
threading the state and the size at which the checkpoint was last
written. -/
def stream_trace (ts : String) (st : StreamState) (lastSave : ℕ) :
    List (List PyDict × Bool) → List TraceEntry
  | [] => []
  | b :: bs =>
      let r := stream_step ts st b
      ⟨r.1.processed.card, lastSave, r.2.1, r.2.2⟩ ::
        stream_trace ts r.1 (if r.2.2 then r.1.processed.card else lastSave) bs

/-- ETLOrchestrator.run_streaming_pipeline (etl_orchestrator.py lines
123-160) without its exception path: load the checkpoint; fail («if not
cities: return False», lines 132-135) when the obtained city list is
empty; filter the remaining cities and return success at once when none
remain (the checkpoint file is left untouched on both of those early
paths); otherwise stream the batches and, on success, delete the
checkpoint file. Returns the reported result, the final checkpoint-file
state and the final streaming state. -/
def run_streaming_pipeline (ck : CheckpointFile) (cities : List PyDict) (ts : String)
    (batches : List (List PyDict × Bool)) : Bool × CheckpointFile × StreamState :=
  let st0 := load_checkpoint ck
  if cities.isEmpty then (false, ck, st0)
  else
    let rem := remaining_cities st0 cities
    if rem.isEmpty then (true, ck, st0)
    else
      let res := process_announcements_streaming ts st0 batches
      if res.2 then (true, .absent, res.1) else (false, ck, res.1)

/-! ### Claim statements and concrete inputs -/

/-- Claim C1 as stated: a fetch that exhausts its attempts and records the
URL as failed must have seen at least `retries` non-429/503 failures —
that is, 429/503 responses do not consume one of the configured retry
attempts. -/
def claim_c1_prop : Prop :=
  ∀ (o : ℕ → FetchOutcome) (retries : ℕ) (b : ℚ),
    (fetch_page o retries b).result = Option.none →
    retries ≤ (fetch_page o retries b).fails

/-- Attempt outcomes refuting claim C1: a 429 first, then two plain
failures, then a success the loop never reaches. -/
def fetchOutcomesC1 : ℕ → FetchOutcome :=
  fun i => if i = 0 then .status429 else if i = 3 then .success "ok" else .failure

/-- Attempt outcomes for the C1 witness: a 429, then a 503, then
successes. -/
def fetchOutcomesC1W : ℕ → FetchOutcome :=
  fun i => if i = 0 then .status429 else if i = 1 then .status503 else .success "ok"

/-- Claim C5 as stated: whenever the pagination loop finishes, the page at
the last requested offset was either a failed fetch or a page whose
indicator reported the last page, and the offsets requested are the
successive multiples of the page size. -/
def claim_c5_prop : Prop :=
  ∀ (pages : ℕ → FetchRes) (fuel : ℕ) (rs : List PyDict) (offs : List ℕ),
    extract_city_announcements pages fuel = some (rs, offs) →
    (∀ l, offs.getLast? = some l →
       pages l = .failed ∨ ∃ p, pages l = .page p ∧ is_last_page p = true)
    ∧ offs = (List.range offs.length).map (fun k => max_listings_per_page * k)

/-- Pages refuting claim C5: the fetch at offset 0 succeeds with an empty
body (falsy, no pagination indicator), and a page full of rows with a
terminating indicator waits at offset 50. -/
def pagesC5 : ℕ → FetchRes :=
  fun off =>
    if off = 0 then .empty
    else .page ⟨[[("id", PyVal.str "9")]], some (1, 1)⟩

/-- Pages for the C5 witness: two pages, the second reporting
«Página 2 / 2», then failures. -/
def pagesC5W : ℕ → FetchRes :=
  fun off =>
    if off = 0 then .page ⟨[[("id", PyVal.str "1")]], some (1, 2)⟩
    else if off = max_listings_per_page then .page ⟨[[("id", PyVal.str "2")]], some (2, 2)⟩
    else .failed

/-- Claim C3 as stated: in every streaming run, a step after which exactly
10 distinct cities have been merged since the last checkpoint save writes
a checkpoint, and a run reporting success leaves no checkpoint file. -/
def claim_c3_prop : Prop :=
  ∀ (ck : CheckpointFile) (cities : List PyDict) (ts : String)
    (batches : List (List PyDict × Bool)),
    (∀ e ∈ stream_trace ts (load_checkpoint ck) (load_checkpoint ck).processed.card batches,
       e.card - e.lastSave = save_frequency → e.saved = true)
    ∧ ((run_streaming_pipeline ck cities ts batches).1 = true →
       (run_streaming_pipeline ck cities ts batches).2.1 = CheckpointFile.absent)

/-- A checkpoint written at one processed city (the exception path of the
streaming run can save at any size). -/
def ckC3 : CheckpointFile := .valid [PyVal.str "c0"] 0 false

/-- One streaming batch merging ten distinct new city ids at once, each
record carrying only its city_id. -/
def batchesC3 : List (List PyDict × Bool) :=
  [((List.range 10).map fun i => [("city_id", PyVal.str (toString i))], true)]

/-- A checkpoint that already lists the only city. -/
def ckC3B : CheckpointFile := .valid [PyVal.str "c1"] 5 false

/-- A city list whose single city is already processed. -/
def citiesC3B : List PyDict := [[("id", PyVal.str "c1")]]

/-- Whether a value would survive numeric cleaning with a non-negative
result: ints and floats must be non-negative, every other value is safe. -/
def nonneg_source (v : PyVal) : Bool :=
  match v with
  | .int n => decide (0 ≤ n)
  | .float q => decide (0 ≤ q)
  | _ => true

/-- A raw announcement with string numeric fields, for the C4 witness. -/
def exC4 : PyDict :=
  [("price", PyVal.str "$1.200.000"), ("rooms", PyVal.str "2"),
   ("bathrooms", PyVal.str "1"), ("parkings", PyVal.str "N/A"),
   ("area", PyVal.str "80 M2"), ("description", PyVal.str "Lindo apartamento")]

/-- The record the transformer produces from `exC4`. -/
def rexC4 : TransformedAnnouncement :=
  { id := "", url := "", city_name := "", city_id := "", neighborhood := ""
    price := 1200000, rooms := 2, bathrooms := 1, parkings := 0, area := 80
    description := "Lindo apartamento", image_url := "", property_type := "apartment"
    is_active := true, created_at := "tt" }

/-- The raw announcement with a negative integer price refuting claim
C4. -/
def exC4neg : PyDict := [("price", PyVal.int (-5))]

/-- Modelled from the spec: §4.8's property-type inference cascade, stated
over the lowered description, the cleaned room count and the cleaned
area — the reference the code's inference is compared against. -/
def infer_property_type_ref (dl : String) (rooms : ℤ) (area : ℚ) : String :=
  if pyIn "apartamento" dl then
    if rooms = 1 ∨ area < 50 then "studio_apartment" else "apartment"
  else if pyIn "casa" dl then "house"
  else if pyIn "bodega" dl || pyIn "local" dl then "warehouse"
  else if pyIn "oficina" dl then "office"
  else if rooms ≤ 1 then "studio_apartment"
  else if rooms ≤ 3 then "apartment"
  else "house"

/-- A raw announcement for the C6 witness. -/
def exC6 : PyDict :=
  [("description", PyVal.str "Amplio Apartamento"), ("rooms", PyVal.str "3"),
   ("area", PyVal.str "70")]

/-- A one-record batch for the C7 witness. -/
def recC7 : PyDict := [("id", PyVal.str "1")]

/-- The nCiudad query parameter of an href. -/
def nCiudad_of (href : String) : String := qs_get_first (url_query href) "nCiudad"

/-- The pCiudad query parameter of an href. -/
def pCiudad_of (href : String) : String := qs_get_first (url_query href) "pCiudad"

/-- Claim C8 as stated: one record per matching anchor in document order
without deduplication, every record has a non-empty name and code, and the
name is exactly the nCiudad parameter whenever that parameter is
non-empty. -/
def claim_c8_prop : Prop :=
  ∀ anchors : List Anchor,
    (parse_cities_page anchors =
      (anchors.filter anchorMatches).map fun a => extract_city_info a.href (strTrim a.text))
    ∧ (∀ c ∈ parse_cities_page anchors, c.name ≠ "" ∧ c.code ≠ "")
    ∧ (∀ a : Anchor, anchorMatches a = true → nCiudad_of a.href ≠ "" →
        (extract_city_info a.href (strTrim a.text)).name = nCiudad_of a.href)

/-- An anchor whose href carries no pCiudad parameter, refuting claim
C8. -/
def anchorC8 : Anchor := ⟨"/Resumen_Ciudad_arriendos.asp?nCiudad=Bogota", " Bogota "⟩

/-! ### Theorems -/

/-- Claim C2: in the streaming pipeline a persistence failure inside the
per-city callback is only logged — _process_announcements_streaming
returns true for every batch sequence once extraction finishes, and a
failed batch save leaves the streaming state untouched. -/
theorem streaming_reports_success_despite_save_failures :
    ∀ (ts : String) (st : StreamState) (batches : List (List PyDict × Bool)),
      (process_announcements_streaming ts st batches).2 = true
      ∧ ∀ b : List PyDict, (stream_step ts st (b, false)).1 = st := by
  intro ts st batches
  refine ⟨rfl, ?_⟩
  intro b
  unfold stream_step
  dsimp only
  split_ifs with h1 h2 h3
  · rfl
  · rfl
  · exact h3.elim
  · rfl

/-- Claim C10: a missing checkpoint file, and one that cannot be read or
parsed, both reset the streaming state to its initial values, so the run
does not fail on account of the checkpoint and proceeds over the full
city list (the run still fails when the city list itself is empty, as it
would with an intact checkpoint). -/
theorem checkpoint_corruption_resets_and_run_proceeds :
    load_checkpoint CheckpointFile.corrupt = reset_state
    ∧ load_checkpoint CheckpointFile.absent = reset_state
    ∧ reset_state = ⟨∅, 0, true⟩
    ∧ (∀ cities : List PyDict, remaining_cities reset_state cities = cities)
    ∧ (∀ (cities : List PyDict) (ts : String) (batches : List (List PyDict × Bool)),
        cities ≠ [] →
        (run_streaming_pipeline CheckpointFile.corrupt cities ts batches).1 = true) := by
  refine ⟨rfl, rfl, rfl, ?_, ?_⟩
  · intro cities
    unfold remaining_cities reset_state
    apply List.filter_eq_self.mpr
    intro c _
    simp
  · intro cities ts batches hc
    have hne : cities.isEmpty = false := by
      simpa [List.isEmpty_iff] using hc
    unfold run_streaming_pipeline
    dsimp only
    rw [hne, if_neg Bool.false_ne_true]
    split_ifs with h1 h2
    · rfl
    · rfl
    · exact absurd rfl h2

/-- Witness for C10: a corrupt checkpoint with one concrete city still
reports success. -/
theorem checkpoint_corruption_resets_and_run_proceeds_witness :
    (run_streaming_pipeline CheckpointFile.corrupt [[("id", PyVal.str "c1")]] "tt" []).1 = true :=
  checkpoint_corruption_resets_and_run_proceeds.2.2.2.2 [[("id", PyVal.str "c1")]] "tt" []
    (by decide)

/-- Claim C7: in the flat-file streaming load, a first batch writes the
header before its rows, a later batch into an existing file appends only
rows, and an empty batch succeeds without touching the file. -/
theorem streaming_csv_header_behavior :
    (∀ (data : List PyDict) (t : String) (file : Option (List CsvLine)), data ≠ [] →
       load_announcements_streaming data file true t =
         (some (file.getD [] ++ CsvLine.header :: (data.map (stampRecord t)).map CsvLine.row),
          true, data.map (stampRecord t)))
    ∧ (∀ (data : List PyDict) (t : String) (prev : List CsvLine), data ≠ [] →
       load_announcements_streaming data (some prev) false t =
         (some (prev ++ (data.map (stampRecord t)).map CsvLine.row),
          true, data.map (stampRecord t)))
    ∧ (∀ (file : Option (List CsvLine)) (first : Bool) (t : String),
       load_announcements_streaming [] file first t = (file, true, [])) := by
  refine ⟨?_, ?_, ?_⟩
  · intro data t file h
    simp [load_announcements_streaming, h]
  · intro data t prev h
    simp [load_announcements_streaming, h]
  · intro file first t
    rfl

/-- Witness for C7 at a one-record batch: the first call writes the header
row, the second call into the existing file appends without one. -/
theorem streaming_csv_header_behavior_witness :
    load_announcements_streaming [recC7] Option.none true "T" =
      (some ((Option.none : Option (List CsvLine)).getD [] ++
        CsvLine.header :: ([recC7].map (stampRecord "T")).map CsvLine.row),
       true, [recC7].map (stampRecord "T"))
    ∧ load_announcements_streaming [recC7] (some [CsvLine.header]) false "T" =
      (some ([CsvLine.header] ++ ([recC7].map (stampRecord "T")).map CsvLine.row),
       true, [recC7].map (stampRecord "T")) :=
  ⟨streaming_csv_header_behavior.1 [recC7] "T" Option.none (by decide),
   streaming_csv_header_behavior.2.1 [recC7] "T" [CsvLine.header] (by decide)⟩

/-- Looking up a key right after appending it to a dict that lacked it
finds the appended value. -/
theorem lookup_append_single (k : String) (v : PyVal) :
    ∀ r : PyDict, List.lookup k r = Option.none →
      List.lookup k (r ++ [(k, v)]) = some v := by
  intro r
  induction r with
  | nil => intro _; simp [List.lookup]
  | cons p r ih =>
    intro h
    rw [List.lookup] at h
    by_cases hk : k = p.1
    · rw [show (k == p.1) = true from beq_iff_eq.mpr hk] at h
      cases h
    · rw [List.cons_append, List.lookup, show (k == p.1) = false from beq_eq_false_iff_ne.mpr hk]
      rw [show (k == p.1) = false from beq_eq_false_iff_ne.mpr hk] at h
      exact ih h

/-- Replacing the pairs keyed `k` in a dict that contains `k` makes a
lookup of `k` find the replacement value. -/
theorem lookup_map_replace (k : String) (v : PyVal) :
    ∀ (r : PyDict) (w : PyVal), List.lookup k r = some w →
      List.lookup k (r.map fun p => cond (p.1 == k) (k, v) p) = some v := by
  intro r
  induction r with
  | nil => intro w h; cases h
  | cons p r ih =>
    obtain ⟨a, b⟩ := p
    intro w h
    rw [List.lookup] at h
    by_cases hk : k = a
    · subst hk
      simp only [List.map_cons, beq_self_eq_true, cond, List.lookup]
    · rw [show (k == a) = false from beq_eq_false_iff_ne.mpr hk] at h
      simp only [List.map_cons,
        show ((a, b).1 == k) = false from beq_eq_false_iff_ne.mpr (fun hp => hk hp.symm),
        cond, List.lookup,
        show (k == a) = false from beq_eq_false_iff_ne.mpr hk]
      exact ih w h

/-- Stamping a record makes the extraction_timestamp key hold the stamp. -/
theorem lookup_stampRecord (t : String) (r : PyDict) :
    List.lookup "extraction_timestamp" (stampRecord t r) = some (PyVal.str t) := by
  unfold stampRecord setKey
  cases h : List.lookup "extraction_timestamp" r with
  | none => exact lookup_append_single _ _ r h
  | some w => exact lookup_map_replace _ _ r w h

/-- Claim C9: the flat-file streaming load mutates its input — after a
call, the caller's batch is exactly the original records with the shared
extraction_timestamp stamped into each one in place. -/
theorem streaming_load_stamps_records_in_place :
    ∀ (data : List PyDict) (file : Option (List CsvLine)) (first : Bool) (t : String),
      (load_announcements_streaming data file first t).2.2 = data.map (stampRecord t)
      ∧ ∀ r ∈ (load_announcements_streaming data file first t).2.2,
          List.lookup "extraction_timestamp" r = some (PyVal.str t) := by
  intro data file first t
  have hout : (load_announcements_streaming data file first t).2.2 = data.map (stampRecord t) := by
    unfold load_announcements_streaming
    dsimp only
    split_ifs with h h2
    · rw [List.isEmpty_iff.mp h]
      rfl
    · rfl
    · rfl
  refine ⟨hout, ?_⟩
  intro r hr
  rw [hout] at hr
  obtain ⟨a, _, rfl⟩ := List.mem_map.mp hr
  exact lookup_stampRecord t a

/-- Claim C8 fails on the code: an anchor whose matching href carries no
pCiudad parameter yields a record whose code is the empty string. -/
theorem cities_nonempty_code_counterexample : ¬ claim_c8_prop := by
  intro h
  have hmem : extract_city_info anchorC8.href (strTrim anchorC8.text) ∈
      parse_cities_page [anchorC8] := by decide
  exact ((h [anchorC8]).2.1 _ hmem).2 (by decide)

/-- Claim C8, amended: the Cities Extractor returns one record per anchor
whose link target begins with the rental path prefix, in document order
without deduplication; each record's name is the nCiudad query parameter
when it is non-empty and the anchor's stripped visible text otherwise, and
its code is the pCiudad query parameter — which may be empty (as may the
name, when both sources are empty). -/
theorem cities_parse_characterization :
    (∀ anchors : List Anchor,
       parse_cities_page anchors =
         (anchors.filter anchorMatches).map fun a => extract_city_info a.href (strTrim a.text))
    ∧ (∀ a : Anchor,
       (extract_city_info a.href (strTrim a.text)).code = pCiudad_of a.href
       ∧ (extract_city_info a.href (strTrim a.text)).name =
           (if nCiudad_of a.href = "" then strTrim a.text else nCiudad_of a.href)
       ∧ (extract_city_info a.href (strTrim a.text)).url = a.href) :=
  ⟨fun _ => rfl, fun _ => ⟨rfl, rfl, rfl⟩⟩

/-- Claim C6: the property-type inference follows the specified cascade —
"apartamento" splits on one room or area below 50, then "casa", then
"bodega"/"local", then "oficina", then the room-count bands. -/
theorem infer_property_type_matches_spec :
    ∀ (a : PyDict) (d : String) (q : ℚ),
      pyGet a "description" (.str "") = .str d →
      clean_area (pyGet a "area" (.int 0)) = some q →
      infer_property_type a =
        some (infer_property_type_ref (pyLower d)
          (clean_numeric (pyGet a "rooms" (.int 0))) q) := by
  intro a d q hd hq
  unfold infer_property_type
  rw [hd]
  dsimp only
  rw [hq]
  dsimp only
  unfold infer_property_type_ref
  split_ifs <;> rfl

/-- Witness for C6: a three-room, seventy-square-meter "Apartamento"
description goes through the cascade. -/
theorem infer_property_type_matches_spec_witness :
    infer_property_type exC6 =
      some (infer_property_type_ref (pyLower "Amplio Apartamento")
        (clean_numeric (pyGet exC6 "rooms" (.int 0))) 70) :=
  infer_property_type_matches_spec exC6 "Amplio Apartamento" 70 (by decide) (by decide)

/-- The fetch loop returns no body exactly when none of the attempts it
can still make gets a success outcome. -/
theorem fetchLoop_none_iff (o : ℕ → FetchOutcome) :
    ∀ (r idx : ℕ) (b : ℚ),
      ((fetchLoop o idx b r).result = Option.none ↔
        ∀ i, i < r → ∀ s, o (idx + i) ≠ .success s) := by
  intro r
  induction r with
  | zero =>
      intro idx b
      simp [fetchLoop]
  | succ n ih =>
      intro idx b
      unfold fetchLoop
      cases ho : o idx with
      | success s =>
          simp only
          constructor
          · intro hres
            cases hres
          · intro hall
            exact absurd ho (by simpa using hall 0 (Nat.succ_pos n) s)
      | status429 =>
          simp only
          rw [ih (idx + 1) (min (b * backoff_multiplier) max_backoff)]
          constructor
          · intro hrec i hi s
            cases i with
            | zero => simp [ho]
            | succ j =>
                rw [show idx + (j + 1) = idx + 1 + j by omega]
                exact hrec j (by omega) s
          · intro hall j hj s
            rw [show idx + 1 + j = idx + (j + 1) by omega]
            exact hall (j + 1) (by omega) s
      | status503 =>
          simp only
          rw [ih (idx + 1) b]
          constructor
          · intro hrec i hi s
            cases i with
            | zero => simp [ho]
            | succ j =>
                rw [show idx + (j + 1) = idx + 1 + j by omega]
                exact hrec j (by omega) s
          · intro hall j hj s
            rw [show idx + 1 + j = idx + (j + 1) by omega]
            exact hall (j + 1) (by omega) s
      | failure =>
          simp only
          rw [ih (idx + 1) b]
          constructor
          · intro hrec i hi s
            cases i with
            | zero => simp [ho]
            | succ j =>
                rw [show idx + (j + 1) = idx + 1 + j by omega]
                exact hrec j (by omega) s
          · intro hall j hj s
            rw [show idx + 1 + j = idx + (j + 1) by omega]
            exact hall (j + 1) (by omega) s

/-- Claim C1 fails on the code: with three configured attempts, a 429
followed by two plain failures exhausts the loop — the 429 consumed an
attempt, only two non-429/503 failures were tolerated, and the success
waiting at the fourth attempt is never fetched. -/
theorem fetch_429_consumes_attempt_counterexample :
    ¬ claim_c1_prop
    ∧ (fetch_page fetchOutcomesC1 3 1).result = Option.none
    ∧ (fetch_page fetchOutcomesC1 3 1).fails = 2 := by
  refine ⟨?_, by decide, by decide⟩
  intro h
  exact absurd (h fetchOutcomesC1 3 1 (by decide)) (by decide)

/-- Claim C1, amended: on a 429 the loop sleeps the current backoff delay,
doubles it up to the 60s ceiling and retries; on a 503 it sleeps the
current delay and retries; but both responses consume one of the
configured retry attempts, so the URL is recorded as failed exactly when
none of the first `retries` attempt outcomes is a success — 429/503
responses reduce the number of other failures tolerated. -/
theorem fetch_page_backoff_and_attempt_consumption (o : ℕ → FetchOutcome) :
    (∀ (retries : ℕ) (b : ℚ),
       ((fetch_page o retries b).result = Option.none ↔
         ∀ i, i < retries → ∀ s, o i ≠ .success s))
    ∧ (∀ (idx : ℕ) (b : ℚ) (r : ℕ), o idx = .status429 →
       fetchLoop o idx b (r + 1) =
         { result := (fetchLoop o (idx + 1) (min (b * backoff_multiplier) max_backoff) r).result
           backoff := (fetchLoop o (idx + 1) (min (b * backoff_multiplier) max_backoff) r).backoff
           sleeps := SleepEvent.backoffSleep b ::
             (fetchLoop o (idx + 1) (min (b * backoff_multiplier) max_backoff) r).sleeps
           used := (fetchLoop o (idx + 1) (min (b * backoff_multiplier) max_backoff) r).used + 1
           fails := (fetchLoop o (idx + 1) (min (b * backoff_multiplier) max_backoff) r).fails })
    ∧ (∀ (idx : ℕ) (b : ℚ) (r : ℕ), o idx = .status503 →
       fetchLoop o idx b (r + 1) =
         { result := (fetchLoop o (idx + 1) b r).result
           backoff := (fetchLoop o (idx + 1) b r).backoff
           sleeps := SleepEvent.backoffSleep b :: (fetchLoop o (idx + 1) b r).sleeps
           used := (fetchLoop o (idx + 1) b r).used + 1
           fails := (fetchLoop o (idx + 1) b r).fails }) := by
  refine ⟨?_, ?_, ?_⟩
  · intro retries b
    have h := fetchLoop_none_iff o retries 0 b
    simpa [fetch_page] using h
  · intro idx b r h
    conv_lhs => rw [fetchLoop]
    rw [h]
  · intro idx b r h
    conv_lhs => rw [fetchLoop]
    rw [h]

/-- Witness for the amended C1 at a concrete outcome stream: the first
attempt hits a 429 (sleep then doubled delay), the second a 503 (sleep,
same delay), both consuming an attempt. -/
theorem fetch_page_backoff_and_attempt_consumption_witness :
    fetchLoop fetchOutcomesC1W 0 1 3 =
      { result := (fetchLoop fetchOutcomesC1W 1 (min (1 * backoff_multiplier) max_backoff) 2).result
        backoff := (fetchLoop fetchOutcomesC1W 1 (min (1 * backoff_multiplier) max_backoff) 2).backoff
        sleeps := SleepEvent.backoffSleep 1 ::
          (fetchLoop fetchOutcomesC1W 1 (min (1 * backoff_multiplier) max_backoff) 2).sleeps
        used := (fetchLoop fetchOutcomesC1W 1 (min (1 * backoff_multiplier) max_backoff) 2).used + 1
        fails := (fetchLoop fetchOutcomesC1W 1 (min (1 * backoff_multiplier) max_backoff) 2).fails }
    ∧ fetchLoop fetchOutcomesC1W 1 1 2 =
      { result := (fetchLoop fetchOutcomesC1W 2 1 1).result
        backoff := (fetchLoop fetchOutcomesC1W 2 1 1).backoff
        sleeps := SleepEvent.backoffSleep 1 :: (fetchLoop fetchOutcomesC1W 2 1 1).sleeps
        used := (fetchLoop fetchOutcomesC1W 2 1 1).used + 1
        fails := (fetchLoop fetchOutcomesC1W 2 1 1).fails } :=
  ⟨(fetch_page_backoff_and_attempt_consumption fetchOutcomesC1W).2.1 0 1 2 rfl,
   (fetch_page_backoff_and_attempt_consumption fetchOutcomesC1W).2.2 1 1 1 rfl⟩

/-- Full characterization of one city's pagination loop from an arbitrary
starting offset: the requested offsets step by the page size, every
non-final page was a fetched page whose indicator did not report the end,
the final offset is a falsy fetch or a last page, and the collected
announcements are the concatenation of the fetched pages' rows. -/
theorem extract_city_loop_spec (pages : ℕ → FetchRes) :
    ∀ (fuel off : ℕ) (rs : List PyDict) (offs : List ℕ),
      extract_city_loop pages off fuel = some (rs, offs) →
      offs ≠ []
      ∧ offs = (List.range offs.length).map (fun k => off + max_listings_per_page * k)
      ∧ (pages (off + max_listings_per_page * (offs.length - 1)) = .failed
         ∨ pages (off + max_listings_per_page * (offs.length - 1)) = .empty
         ∨ ∃ p, pages (off + max_listings_per_page * (offs.length - 1)) = .page p
             ∧ is_last_page p = true)
      ∧ (∀ k, k + 1 < offs.length →
          ∃ p, pages (off + max_listings_per_page * k) = .page p ∧ is_last_page p = false)
      ∧ rs = (offs.map fun o2 => rowsOf (pages o2)).flatten := by
  intro fuel
  induction fuel with
  | zero =>
      intro off rs offs h
      cases h
  | succ n ih =>
      intro off rs offs h
      rw [extract_city_loop] at h
      cases hp : pages off with
      | failed =>
          rw [hp] at h
          obtain ⟨h1, h2⟩ := Prod.ext_iff.mp (Option.some.inj h)
          dsimp only at h1 h2
          subst h1
          subst h2
          refine ⟨by simp, by simp [List.range_succ], ?_, ?_, ?_⟩
          · simpa using Or.inl hp
          · intro k hk
            simp at hk
          · simp [hp, rowsOf]
      | empty =>
          rw [hp] at h
          obtain ⟨h1, h2⟩ := Prod.ext_iff.mp (Option.some.inj h)
          dsimp only at h1 h2
          subst h1
          subst h2
          refine ⟨by simp, by simp [List.range_succ], ?_, ?_, ?_⟩
          · simpa using Or.inr (Or.inl hp)
          · intro k hk
            simp at hk
          · simp [hp, rowsOf]
      | page p =>
          rw [hp] at h
          dsimp only at h
          cases hl : is_last_page p with
          | true =>
              rw [if_pos hl] at h
              obtain ⟨h1, h2⟩ := Prod.ext_iff.mp (Option.some.inj h)
              dsimp only at h1 h2
              subst h1
              subst h2
              refine ⟨by simp, by simp [List.range_succ], ?_, ?_, ?_⟩
              · refine Or.inr (Or.inr ⟨p, ?_, hl⟩)
                simpa using hp
              · intro k hk
                simp at hk
              · simp [hp, rowsOf]
          | false =>
              rw [if_neg (by simp [hl])] at h
              cases hrec : extract_city_loop pages (off + max_listings_per_page) n with
              | none =>
                  rw [hrec] at h
                  cases h
              | some pr =>
                  obtain ⟨rs', offs'⟩ := pr
                  rw [hrec] at h
                  obtain ⟨h1, h2⟩ := Prod.ext_iff.mp (Option.some.inj h)
                  dsimp only at h1 h2
                  subst h1
                  subst h2
                  obtain ⟨hne, hoffs, hstop, hmid, hrs⟩ :=
                    ih (off + max_listings_per_page) rs' offs' hrec
                  have hlen : 1 ≤ offs'.length := List.length_pos.mpr hne
                  refine ⟨by simp, ?_, ?_, ?_, ?_⟩
                  · rw [List.length_cons, List.range_succ_eq_map, List.map_cons]
                    refine congrArg₂ List.cons (by simp) ?_
                    rw [List.map_map]
                    conv_lhs => rw [hoffs]
                    refine List.map_congr_left ?_
                    intro k _
                    show off + max_listings_per_page + max_listings_per_page * k =
                      off + max_listings_per_page * (k + 1)
                    ring
                  · rw [List.length_cons, Nat.add_sub_cancel]
                    have harith : off + max_listings_per_page * offs'.length =
                        off + max_listings_per_page +
                          max_listings_per_page * (offs'.length - 1) := by
                      obtain ⟨m, hm⟩ : ∃ m, offs'.length = m + 1 :=
                        ⟨offs'.length - 1, by omega⟩
                      rw [hm, Nat.add_sub_cancel]
                      ring
                    rw [harith]
                    exact hstop
                  · intro k hk
                    rw [List.length_cons] at hk
                    cases k with
                    | zero =>
                        refine ⟨p, ?_, hl⟩
                        simpa using hp
                    | succ j =>
                        obtain ⟨p2, hp2, hl2⟩ := hmid j (by omega)
                        refine ⟨p2, ?_, hl2⟩
                        rw [show off + max_listings_per_page * (j + 1) =
                            off + max_listings_per_page + max_listings_per_page * j from by ring]
                        exact hp2
                  · rw [List.map_cons, List.flatten_cons, hp]
                    rw [← hrs]
                    rfl

/-- Claim C5, amended: per-city pagination stops exactly when the fetch
result is falsy — a failed fetch or a successful fetch with an empty
body — or when the page's indicator reports current page ≥ total pages;
a non-empty page without an indicator never stops the loop, whose offsets
advance by the page size (50), and partial results are kept. -/
theorem extract_city_pagination_stop_characterization :
    ∀ (pages : ℕ → FetchRes) (fuel : ℕ) (rs : List PyDict) (offs : List ℕ),
      extract_city_announcements pages fuel = some (rs, offs) →
      offs ≠ []
      ∧ offs = (List.range offs.length).map (fun k => max_listings_per_page * k)
      ∧ (pages (max_listings_per_page * (offs.length - 1)) = .failed
         ∨ pages (max_listings_per_page * (offs.length - 1)) = .empty
         ∨ ∃ p, pages (max_listings_per_page * (offs.length - 1)) = .page p
             ∧ is_last_page p = true)
      ∧ (∀ k, k + 1 < offs.length →
          ∃ p, pages (max_listings_per_page * k) = .page p ∧ is_last_page p = false)
      ∧ rs = (offs.map fun o2 => rowsOf (pages o2)).flatten := by
  intro pages fuel rs offs h
  have hs := extract_city_loop_spec pages fuel 0 rs offs h
  simpa using hs

/-- Claim C5 fails on the code: a successful fetch whose body is the empty
string is falsy, so the loop stops at offset 0 with no fetch failure and
no pagination indicator, and the page waiting at offset 50 is never
requested. -/
theorem pagination_empty_page_counterexample : ¬ claim_c5_prop := by
  intro h
  have h0 : extract_city_announcements pagesC5 1 = some ([], [0]) := by decide
  have hlast := (h pagesC5 1 [] [0] h0).1 0 rfl
  rcases hlast with hf | ⟨p, hp, _⟩
  · exact absurd hf (by decide)
  · rw [show pagesC5 0 = FetchRes.empty from by decide] at hp
    cases hp

/-- Witness for the amended C5 at a concrete two-page city: offsets 0 and
50 are requested, and the collected rows are the two pages' rows. -/
theorem extract_city_pagination_stop_characterization_witness :
    (([0, max_listings_per_page] : List ℕ) ≠ [])
    ∧ (([0, max_listings_per_page] : List ℕ) =
        (List.range ([0, max_listings_per_page] : List ℕ).length).map
          (fun k => max_listings_per_page * k))
    ∧ (([[("id", PyVal.str "1")], [("id", PyVal.str "2")]] : List PyDict) =
        (([0, max_listings_per_page] : List ℕ).map fun o2 => rowsOf (pagesC5W o2)).flatten) := by
  have hrun : extract_city_announcements pagesC5W 5 =
      some ([[("id", PyVal.str "1")], [("id", PyVal.str "2")]], [0, max_listings_per_page]) := by
    decide
  have hs := extract_city_pagination_stop_characterization pagesC5W 5
    [[("id", PyVal.str "1")], [("id", PyVal.str "2")]] [0, max_listings_per_page] hrun
  exact ⟨hs.1, hs.2.1, hs.2.2.2.2⟩

/-- The digit-string value cast to the rationals is non-negative. -/
theorem digitsVal_cast_nonneg (l : List Char) : (0 : ℚ) ≤ (digitsVal l : ℚ) := by
  positivity

/-- Python float() on a digits-and-dots string never returns a negative
number. -/
theorem pyFloatOfDigitsDots_nonneg (l : List Char) (q : ℚ)
    (h : pyFloatOfDigitsDots l = some q) : 0 ≤ q := by
  unfold pyFloatOfDigitsDots at h
  rcases hs : splitOnChar '.' l with _ | ⟨a, _ | ⟨b, _ | _⟩⟩ <;> rw [hs] at h
  · cases h
  · dsimp only at h
    split_ifs at h
    obtain rfl := Option.some.inj h
    positivity
  · dsimp only at h
    split_ifs at h
    obtain rfl := Option.some.inj h
    positivity
  · cases h

/-- The first numeric token matched in a string is non-negative. -/
theorem firstNumToken_nonneg : ∀ (l : List Char) (q : ℚ),
    firstNumToken l = some q → 0 ≤ q := by
  intro l
  induction l with
  | nil => intro q h; cases h
  | cons c cs ih =>
      intro q h
      unfold firstNumToken at h
      split_ifs at h with hc
      · dsimp only at h
        split at h
        · split_ifs at h <;>
            · obtain rfl := Option.some.inj h
              positivity
        · obtain rfl := Option.some.inj h
          positivity
      · exact ih q h

/-- clean_float never returns a negative number unless handed a negative
numeric value. -/
theorem clean_float_nonneg_of_source (v : PyVal) (q : ℚ)
    (h1 : nonneg_source v = true) (h2 : clean_float v = some q) : 0 ≤ q := by
  unfold clean_float at h2
  split_ifs at h2 with hf
  · obtain rfl := Option.some.inj h2
    exact le_refl 0
  · cases v with
    | none =>
        obtain rfl := Option.some.inj h2
        exact le_refl 0
    | int n =>
        obtain rfl := Option.some.inj h2
        exact_mod_cast of_decide_eq_true h1
    | float w =>
        obtain rfl := Option.some.inj h2
        exact of_decide_eq_true h1
    | str s =>
        dsimp only at h2
        split_ifs at h2
        · obtain rfl := Option.some.inj h2
          exact le_refl 0
        · exact pyFloatOfDigitsDots_nonneg _ q h2

/-- clean_area never returns a negative number unless handed a negative
numeric value. -/
theorem clean_area_nonneg_of_source (v : PyVal) (q : ℚ)
    (h1 : nonneg_source v = true) (h2 : clean_area v = some q) : 0 ≤ q := by
  unfold clean_area at h2
  split_ifs at h2 with hf
  · obtain rfl := Option.some.inj h2
    exact le_refl 0
  · cases v with
    | str s =>
        dsimp only at h2
        cases ht : firstNumToken s.toList with
        | none =>
            rw [ht] at h2
            exact clean_float_nonneg_of_source _ q h1 h2
        | some w =>
            rw [ht] at h2
            obtain rfl := Option.some.inj h2
            exact firstNumToken_nonneg _ _ ht
    | none => exact clean_float_nonneg_of_source _ q h1 h2
    | int n => exact clean_float_nonneg_of_source _ q h1 h2
    | float w => exact clean_float_nonneg_of_source _ q h1 h2

/-- The string branch of clean_numeric is a cast natural number. -/
theorem clean_numeric_str_nonneg (s : String) : 0 ≤ clean_numeric (.str s) := by
  unfold clean_numeric
  split_ifs with h
  · exact le_refl 0
  · dsimp only
    split_ifs with h2
    · exact le_refl 0
    · exact Int.natCast_nonneg _

/-- clean_numeric never returns a negative number unless handed a negative
int. -/
theorem clean_numeric_nonneg_of_source (v : PyVal) (h : nonneg_source v = true) :
    0 ≤ clean_numeric v := by
  cases v with
  | none => exact le_refl 0
  | str s => exact clean_numeric_str_nonneg s
  | int n =>
      unfold clean_numeric
      split_ifs <;> first | exact le_refl 0 | exact of_decide_eq_true h
  | float q =>
      unfold clean_numeric
      split_ifs <;> exact le_refl 0

/-- Claim C4 fails on the code: clean_numeric passes an already-numeric
negative int through unchanged, and a raw announcement whose price field
holds the int -5 is transformed into a record with price -5 < 0. -/
theorem clean_numeric_negative_counterexample :
    clean_numeric (PyVal.int (-5)) = -5
    ∧ ¬ (0 ≤ clean_numeric (PyVal.int (-5)))
    ∧ (transform_single_announcement exC4neg "tt").map (fun r => r.price) = some (-5) := by
  decide

/-- Claim C4, amended: the numeric cleaner yields 0 for absent, "N/A",
empty-string and digit-free input and never yields a negative for string
input; and for every raw announcement none of whose numeric source fields
(price, rooms, bathrooms, parkings, area) holds a negative number, the
transformed record has price, rooms, bathrooms and parkings ≥ 0 and area
≥ 0.0 — already-numeric negative inputs, however, pass through unchanged
(see the counterexample). -/
theorem transform_numeric_fields_nonneg :
    (clean_numeric PyVal.none = 0 ∧ clean_numeric (.str "") = 0
      ∧ clean_numeric (.str "N/A") = 0)
    ∧ (∀ s : String, (∀ c ∈ s.toList, c.isDigit = false) → clean_numeric (.str s) = 0)
    ∧ (∀ s : String, 0 ≤ clean_numeric (.str s))
    ∧ (∀ (a : PyDict) (t : String) (r : TransformedAnnouncement),
        nonneg_source (pyGet a "price" (.int 0)) = true →
        nonneg_source (pyGet a "rooms" (.str "")) = true →
        nonneg_source (pyGet a "bathrooms" (.str "")) = true →
        nonneg_source (pyGet a "parkings" (.str "")) = true →
        nonneg_source (pyGet a "area" (.str "")) = true →
        transform_single_announcement a t = some r →
        0 ≤ r.price ∧ 0 ≤ r.rooms ∧ 0 ≤ r.bathrooms ∧ 0 ≤ r.parkings ∧ 0 ≤ r.area) := by
  refine ⟨⟨rfl, rfl, rfl⟩, ?_, clean_numeric_str_nonneg, ?_⟩
  · intro s h
    unfold clean_numeric
    split_ifs with hf
    · rfl
    · dsimp only
      have hnil : s.toList.filter Char.isDigit = [] := by
        apply List.filter_eq_nil_iff.mpr
        intro c hc
        simp [h c hc]
      rw [hnil]
      rfl
  · intro a t r h1 h2 h3 h4 h5 htr
    unfold transform_single_announcement at htr
    obtain ⟨cn, e1, htr⟩ := Option.bind_eq_some.mp htr
    obtain ⟨nb, e2, htr⟩ := Option.bind_eq_some.mp htr
    obtain ⟨area, e3, htr⟩ := Option.bind_eq_some.mp htr
    obtain ⟨de, e4, htr⟩ := Option.bind_eq_some.mp htr
    obtain ⟨pt, e5, hrec⟩ := Option.map_eq_some'.mp htr
    subst hrec
    exact ⟨clean_numeric_nonneg_of_source _ h1, clean_numeric_nonneg_of_source _ h2,
      clean_numeric_nonneg_of_source _ h3, clean_numeric_nonneg_of_source _ h4,
      clean_area_nonneg_of_source _ area h5 e3⟩

/-- Witness for the amended C4 at a concrete raw announcement with string
numeric fields. -/
theorem transform_numeric_fields_nonneg_witness :
    clean_numeric (.str "abc") = 0
    ∧ (0 ≤ rexC4.price ∧ 0 ≤ rexC4.rooms ∧ 0 ≤ rexC4.bathrooms
        ∧ 0 ≤ rexC4.parkings ∧ 0 ≤ rexC4.area) :=
  ⟨transform_numeric_fields_nonneg.2.1 "abc" (by decide),
   transform_numeric_fields_nonneg.2.2.2 exC4 "tt" rexC4 (by decide) (by decide) (by decide)
     (by decide) (by decide) (by decide)⟩

/-- Every entry of the cadence trace saves a checkpoint exactly when its
batch was merged and the resulting processed-cities size is an exact
multiple of the save frequency. -/
theorem stream_trace_saved_eq (ts : String) :
    ∀ (batches : List (List PyDict × Bool)) (st : StreamState) (ls : ℕ),
      ∀ e ∈ stream_trace ts st ls batches,
        e.saved = (e.merged && decide (e.card % save_frequency = 0)) := by
  intro batches
  induction batches with
  | nil =>
      intro st ls e he
      cases he
  | cons b bs ih =>
      intro st ls e he
      rw [stream_trace] at he
      rcases List.mem_cons.mp he with he | he
      · subst he
        show (stream_step ts st b).2.2 =
          ((stream_step ts st b).2.1 &&
            decide ((stream_step ts st b).1.processed.card % save_frequency = 0))
        unfold stream_step
        dsimp only
        split_ifs with h1 h2 h3
        · rfl
        · rfl
        · simp
        · rfl
      · exact ih _ _ e he

/-- Claim C3 fails on the code in both halves. Cadence: resuming from a
checkpoint saved at one processed city, a single successfully persisted
batch that merges ten distinct new city ids makes exactly ten cities
merged since the last save, yet no checkpoint is written (11 % 10 ≠ 0).
Cleanup: a successful run that finds every city already processed returns
before the cleanup step, leaving the checkpoint file in place. -/
theorem checkpoint_cadence_counterexample :
    ¬ claim_c3_prop
    ∧ (run_streaming_pipeline ckC3B citiesC3B "tt" []).1 = true
    ∧ (run_streaming_pipeline ckC3B citiesC3B "tt" []).2.1 ≠ CheckpointFile.absent := by
  refine ⟨?_, by decide, by decide⟩
  intro h
  have hmem : (⟨11, 1, true, false⟩ : TraceEntry) ∈
      stream_trace "tt" (load_checkpoint ckC3) (load_checkpoint ckC3).processed.card batchesC3 := by
    decide
  have hsaved := (h ckC3 [] "tt" batchesC3).1 _ hmem (by decide)
  exact absurd hsaved (by decide)

/-- Claim C3, amended: during a streaming run a checkpoint is written
exactly when a successfully persisted batch leaves the size of
processed_cities an exact multiple of the save frequency (10) — a batch
merging several new city ids at once can jump over the multiple and skip
the write; and after a successful run that still had cities to process
the checkpoint file no longer exists (a run that finds all cities already
processed returns success without deleting it). -/
theorem checkpoint_cadence_divisibility :
    ∀ (ck : CheckpointFile) (cities : List PyDict) (ts : String)
      (batches : List (List PyDict × Bool)),
      (∀ e ∈ stream_trace ts (load_checkpoint ck) (load_checkpoint ck).processed.card batches,
         e.saved = (e.merged && decide (e.card % save_frequency = 0)))
      ∧ (remaining_cities (load_checkpoint ck) cities ≠ [] →
         (run_streaming_pipeline ck cities ts batches).1 = true
         ∧ (run_streaming_pipeline ck cities ts batches).2.1 = CheckpointFile.absent) := by
  intro ck cities ts batches
  refine ⟨fun e he => stream_trace_saved_eq ts batches _ _ e he, fun hrem => ?_⟩
  have hne : (remaining_cities (load_checkpoint ck) cities).isEmpty = false := by
    simpa [List.isEmpty_iff] using hrem
  have hcities : cities.isEmpty = false := by
    rcases cities with _ | ⟨c, cs⟩
    · exact absurd rfl hrem
    · rfl
  unfold run_streaming_pipeline
  dsimp only
  rw [hcities, hne]
  exact ⟨rfl, rfl⟩

/-- Witness for the amended C3: the traced entry of a resumed run obeys
the divisibility rule, and a fresh run over one unprocessed city reports
success with the checkpoint file gone. -/
theorem checkpoint_cadence_divisibility_witness :
    ((⟨11, 1, true, false⟩ : TraceEntry).saved =
      ((⟨11, 1, true, false⟩ : TraceEntry).merged &&
        decide ((⟨11, 1, true, false⟩ : TraceEntry).card % save_frequency = 0)))
    ∧ (run_streaming_pipeline CheckpointFile.absent [[("id", PyVal.str "c9")]] "tt" batchesC3).1 = true
    ∧ (run_streaming_pipeline CheckpointFile.absent [[("id", PyVal.str "c9")]] "tt" batchesC3).2.1 =
        CheckpointFile.absent := by
  have hmem : (⟨11, 1, true, false⟩ : TraceEntry) ∈
      stream_trace "tt" (load_checkpoint ckC3) (load_checkpoint ckC3).processed.card batchesC3 := by
    decide
  have h1 := (checkpoint_cadence_divisibility ckC3 [] "tt" batchesC3).1 _ hmem
  have h2 := (checkpoint_cadence_divisibility CheckpointFile.absent [[("id", PyVal.str "c9")]]
    "tt" batchesC3).2 (by decide)
  exact ⟨h1, h2.1, h2.2⟩

/-- Witness for C9: the record of a concrete one-record batch carries the
stamped timestamp after the call. -/
theorem streaming_load_stamps_records_in_place_witness :
    List.lookup "extraction_timestamp" (stampRecord "T" recC7) = some (PyVal.str "T") :=
  (streaming_load_stamps_records_in_place [recC7] Option.none true "T").2
    (stampRecord "T" recC7) (by decide)

end Rental
